import Mathlib

/-!
Verification development for the `italian-nonno-bot` repository.

The Python sources are shallowly embedded:
  * Python strings are `List Char` (`Str`); `str.lower()` is modelled by
    `Char.toLower` on each character (ASCII case mapping, which covers every
    case-sensitive comparison the embedded code performs);
  * `datetime` timestamps are integers (seconds); probabilities, scores and
    durations are rationals;
  * each call to `random.random()` / `random.uniform(..)` becomes an explicit
    parameter of the embedded function, one per call site;
  * fallible code returns `Option`, mutation becomes explicit state passing.
-/

namespace NonnoBot

/-- Python strings, modelled as lists of characters. -/
abbrev Str := List Char

/-- Python's substring test `needle in haystack`. -/
def isInfixOfL (needle : Str) : Str → Bool
  | [] => needle.isPrefixOf []
  | c :: rest => needle.isPrefixOf (c :: rest) || isInfixOfL needle rest

/-- Python's `str.lower()` (ASCII case mapping). -/
def lowerStr (s : Str) : Str := s.map Char.toLower

/-- `question_starters` (src/main.py:90). -/
def question_starters : List Str :=
  ["come", "cosa", "perché", "quando", "dove", "chi", "quale", "quanto"].map String.data

/-- `tech_keywords` (src/main.py:95-97). -/
def tech_keywords : List Str :=
  ["app", "wifi", "internet", "computer", "telefono", "whatsapp", "telegram",
   "installare", "scaricare", "aggiornamento", "password", "email", "foto",
   "video", "link", "browser", "google", "facebook", "instagram"].map String.data

/-- `help_phrases` (src/main.py:102-103). -/
def help_phrases : List Str :=
  ["aiuto", "aiutare", "spiegare", "non capisco", "non riesco", "come faccio",
   "qualcuno sa", "qualcuno può", "che ne pensate", "cosa fate", "consigli"].map String.data

/-- `group_address` (src/main.py:112). -/
def group_address : List Str :=
  ["ragazzi", "tutti", "qualcuno", "ciao", "salve", "buongiorno", "buonasera"].map String.data

/-- `confusion_words` (src/main.py:117). -/
def confusion_words : List Str :=
  ["confuso", "capire", "spiegazione", "non so", "boh", "mah"].map String.data

/-- `TelegramClaudeBot.calculate_address_probability` (src/main.py:81-121).
The six addends correspond, in order, to the six `probability +=` blocks of the
source; the final `min` is the clamp of line 121. -/
def calculate_address_probability (message_text : Str) : ℚ :=
  if message_text = [] then 0
  else
    let text := lowerStr message_text
    let p1 : ℚ := if question_starters.any (fun q => q.isPrefixOf text) then 3/10 else 0
    let tech_mentions : ℕ := tech_keywords.countP (fun k => isInfixOfL k text)
    let p2 : ℚ := min ((tech_mentions : ℚ) * (15/100)) (4/10)
    let p3 : ℚ := if help_phrases.any (fun ph => isInfixOfL ph text) then 35/100 else 0
    let p4 : ℚ := if isInfixOfL "?".data text then 2/10 else 0
    let p5 : ℚ := if group_address.any (fun a => isInfixOfL a text) then 15/100 else 0
    let p6 : ℚ := if confusion_words.any (fun w => isInfixOfL w text) then 25/100 else 0
    min (p1 + p2 + p3 + p4 + p5 + p6) 1

/-- The fields of an incoming message event that `handle_new_message` and
`should_respond_to_message` inspect (`message_data` as assembled in
src/telegram_client.py:252-259). -/
structure MessageData where
  text : Option Str
  reply_to_msg_id : Option Nat
  current_image : Bool
  sender_is_bot : Bool

/-- `message.text.lower() if message.text else ""` (src/main.py:127 and 260).
Python sends both `None` and the falsy `""` to `""`; lowering the empty string
is the identity, so one match suffices. -/
def message_text_of (md : MessageData) : Str :=
  match md.text with
  | some t => lowerStr t
  | none => []

/-- `TelegramClaudeBot.should_respond_to_message` (src/main.py:123-160).
`rMedium` is the value drawn by the `random.random()` call of line 150 (the
medium-probability weighted coin flip) and `rFallback` the value drawn by the
call of line 155 (the flat 5% fallback). -/
def should_respond_to_message (md : MessageData) (rMedium rFallback : ℚ) : Bool :=
  let message_text := message_text_of md
  if md.reply_to_msg_id.isSome then true
  else if isInfixOfL "@ruphy".data message_text || isInfixOfL "riccardo".data message_text then
    true
  else if md.current_image then true
  else
    let address_probability := calculate_address_probability message_text
    if address_probability > 4/10 then true
    else if address_probability > 2/10 then
      if rMedium < address_probability then true
      else if rFallback < 5/100 then true
      else false
    else if rFallback < 5/100 then true
    else false

/-- `RateLimiter` (src/main.py:17-23); timestamps are in seconds. -/
structure RateLimiter where
  max_messages : ℕ
  window_seconds : ℤ
  message_times : List ℤ

/-- The pruning loop of `can_send_message` (src/main.py:30-31): pop entries
from the front while the front entry is older than `now - window`. -/
def pruneOld (window now : ℤ) : List ℤ → List ℤ
  | [] => []
  | t :: ts => if t < now - window then pruneOld window now ts else t :: ts

/-- `RateLimiter.can_send_message` (src/main.py:25-34); returns the boolean
answer together with the mutated state. -/
def can_send_message (rl : RateLimiter) (now : ℤ) : Bool × RateLimiter :=
  let ts := pruneOld rl.window_seconds now rl.message_times
  (decide (ts.length < rl.max_messages), { rl with message_times := ts })

/-- `RateLimiter.record_message` (src/main.py:36-38). -/
def record_message (rl : RateLimiter) (now : ℤ) : RateLimiter :=
  { rl with message_times := rl.message_times ++ [now] }

/-- The `is_direct` condition of src/main.py:261. -/
def is_direct (md : MessageData) : Bool :=
  md.reply_to_msg_id.isSome ||
    isInfixOfL "@ruphy".data (message_text_of md) ||
    isInfixOfL "riccardo".data (message_text_of md)

/-- Outcome of one run of the message handler: the text sent (if any) and the
rate limiter afterwards. -/
structure HandleResult where
  sent : Option Str
  limiter : RateLimiter

/-- `TelegramClaudeBot.handle_new_message` (src/main.py:243-306), with the AI
response supplied as the `response` argument. `tCheck` is the time of the
`can_send_message` call (line 263) and `tSend` that of `record_message`
(line 303). Python short-circuits `not is_direct and not can_send_message()`,
so the limiter is only read (and pruned) on the non-direct path; the
direct/non-direct branches then handle the response identically. -/
def handle_new_message (ignore_bots : Bool) (rl : RateLimiter) (md : MessageData)
    (rMedium rFallback : ℚ) (tCheck tSend : ℤ) (response : Option Str) : HandleResult :=
  if ignore_bots && md.sender_is_bot then ⟨none, rl⟩
  else if !(should_respond_to_message md rMedium rFallback) then ⟨none, rl⟩
  else if !(is_direct md) then
    let checked := can_send_message rl tCheck
    if !checked.1 then ⟨none, checked.2⟩
    else
      match response with
      | some r => ⟨some r, record_message checked.2 tSend⟩
      | none => ⟨none, checked.2⟩
  else
    match response with
    | some r => ⟨some r, record_message rl tSend⟩
    | none => ⟨none, rl⟩

/-- `tech_words` of the typing-time model (src/main.py:186-187); note this
list differs from the classifier's `tech_keywords`. -/
def tech_words : List Str :=
  ["app", "wifi", "internet", "computer", "telefono", "whatsapp",
   "telegram", "password", "email", "foto", "video", "link"].map String.data

/-- The punctuation set of src/main.py:192. -/
def punctuation_chars : Str := ".,!?;:".data

/-- `TelegramClaudeBot.calculate_boomer_typing_time` (src/main.py:162-206).
`rThink`, `rConfusion` and `rPunct` are the values drawn by the
`random.uniform` calls of lines 183, 189 and 193; `mistake` is the outcome of
the 10% draw of line 197 and `rMistake` the `random.uniform(3.0, 8.0)` of
line 198. -/
def calculate_boomer_typing_time (message : Str) (rThink rConfusion rPunct : ℚ)
    (mistake : Bool) (rMistake : ℚ) : ℚ :=
  if message = [] then 1
  else
    let char_count := message.length
    let typing_time : ℚ := (char_count : ℚ) / 4
    let thinking_pauses : ℚ := ((min (char_count / 20) 5 : ℕ) : ℚ) * rThink
    let tech_mentions : ℕ := tech_words.countP (fun w => isInfixOfL w (lowerStr message))
    let confusion_time : ℚ := (tech_mentions : ℚ) * rConfusion
    let punctuation_count : ℕ := message.countP (fun c => punctuation_chars.contains c)
    let punctuation_time : ℚ := (punctuation_count : ℚ) * rPunct
    let mistake_time : ℚ := if mistake then rMistake else 0
    let total_time : ℚ :=
      max 2 (typing_time + thinking_pauses + confusion_time + punctuation_time + mistake_time)
    min 180 total_time

/-- Whitespace recognised by the embedded `str.strip()` (ASCII whitespace). -/
def isSpaceChar (c : Char) : Bool := c = ' ' || c = '\t' || c = '\n' || c = '\r'

/-- Python's `str.strip()`. -/
def stripStr (s : Str) : Str :=
  ((s.dropWhile isSpaceChar).reverse.dropWhile isSpaceChar).reverse

/-- Shape of the parsed completion-response body, as far as
src/claude_handler.py:184-197 inspects it: parsing may fail, the `choices`
key may be missing or empty, or a first choice with some content is there. -/
inductive ApiBody where
  | malformed
  | noChoices
  | choice (content : Str)

/-- Outcome of the HTTP completion request issued inside `get_claude_response`
(src/claude_handler.py:169-197): the call raises one of the caught exception
classes — timeout (line 199), request error (line 202), anything else
(line 205) — or yields a response with a status code and a body. -/
inductive ApiResult where
  | timeout
  | requestError
  | otherError
  | response (status : ℕ) (body : ApiBody)

/-- `ClaudeHandler.get_claude_response` (src/claude_handler.py:74-207): the
missing-credential check of line 121-124, the status check of line 179, the
body checks of lines 186-194, and the three `except` clauses, all of which
return `None`. -/
def get_claude_response (api_key : Option Str) (result : ApiResult) : Option Str :=
  match api_key with
  | none => none
  | some _ =>
    match result with
    | .timeout => none
    | .requestError => none
    | .otherError => none
    | .response status body =>
      if status ≠ 200 then none
      else
        match body with
        | .malformed => none
        | .noChoices => none
        | .choice content =>
          let c := stripStr content
          if c = [] then none else some c

/-- `ClaudeHandler.process_message` (src/claude_handler.py:209-229): the
try/except wrapper returns `None` when the prompt formatting raises, and
otherwise forwards the result of `get_claude_response`. -/
def process_message (formatRaises : Bool) (api_key : Option Str) (result : ApiResult) :
    Option Str :=
  if formatRaises then none
  else get_claude_response api_key result

/-- Outcome of awaiting the inner processing task inside
`type_while_processing`: normal completion, a raised exception, or
cancellation. -/
inductive InnerOutcome (α : Type) where
  | ok (v : α)
  | raised
  | cancelled

/-- Observable side effects of `type_while_processing`. -/
inductive TEvent where
  | spawnTypingLoop
  | setTypingInactive
  | cancelTypingTask
  | stopTypingSignal
deriving DecidableEq

/-- Python `try/finally`: the `finally` block's effects happen after the body
on every outcome — normal return, raised exception, or cancellation — and the
body's outcome is propagated unchanged. -/
def tryFinallyTrace {α : Type} (body : InnerOutcome α × List TEvent) (fin : List TEvent) :
    InnerOutcome α × List TEvent :=
  (body.1, body.2 ++ fin)

/-- `TelegramBot.type_while_processing` (src/telegram_client.py:296-330):
without a selected group the inner task is awaited bare (lines 298-299);
otherwise the typing-loop task is spawned (line 316), the inner task is
awaited inside `try` (lines 318-321), and the `finally` block (lines 322-330)
clears the typing flag, cancels and awaits the typing task, and issues the
stop-typing notification. -/
def type_while_processing {α : Type} (hasGroup : Bool) (inner : InnerOutcome α) :
    InnerOutcome α × List TEvent :=
  if hasGroup then
    tryFinallyTrace (inner, [TEvent.spawnTypingLoop])
      [TEvent.setTypingInactive, TEvent.cancelTypingTask, TEvent.stopTypingSignal]
  else (inner, [])

/-! Helper lemmas. -/

/-- Each ite addend of the classifier score is nonnegative. -/
theorem ite_weight_nonneg (c : Prop) [Decidable c] (w : ℚ) (hw : 0 ≤ w) :
    0 ≤ if c then w else 0 := by
  split
  · exact hw
  · exact le_refl 0

/-- Pruning never lengthens the timestamp list. -/
theorem pruneOld_length_le (w now : ℤ) (ts : List ℤ) :
    (pruneOld w now ts).length ≤ ts.length := by
  induction ts with
  | nil => simp [pruneOld]
  | cons t ts ih =>
    simp only [pruneOld]
    split
    · exact le_trans ih (Nat.le_succ _)
    · exact le_refl _

/-- When no timestamp is outside the window, pruning is the identity. -/
theorem pruneOld_of_fresh (w now : ℤ) (ts : List ℤ) (h : ∀ t ∈ ts, ¬ t < now - w) :
    pruneOld w now ts = ts := by
  cases ts with
  | nil => rfl
  | cons t ts => simp only [pruneOld]; rw [if_neg (h t (by simp))]

/-- Pruning only removes entries from the front: the result is a suffix. -/
theorem pruneOld_suffix (w now : ℤ) (ts : List ℤ) : (pruneOld w now ts) <:+ ts := by
  induction ts with
  | nil => simp [pruneOld]
  | cons t ts ih =>
    simp only [pruneOld]
    split
    · exact ih.trans (List.suffix_cons t ts)
    · exact List.suffix_refl _

/-- Pruning is idempotent. -/
theorem pruneOld_idem (w now : ℤ) (ts : List ℤ) :
    pruneOld w now (pruneOld w now ts) = pruneOld w now ts := by
  induction ts with
  | nil => rfl
  | cons t ts ih =>
    simp only [pruneOld]
    split
    · exact ih
    · simp only [pruneOld]
      rw [if_neg ‹¬ _›]

/-! Claim theorems. -/

/-- C3: for every message text (the empty string included) the classifier
score lies in the closed interval `[0, 1]`, and the classifier is
deterministic: two calls on the same text yield the identical score. -/
theorem C3_score_deterministic_in_unit_interval (t : Str) :
    (0 ≤ calculate_address_probability t ∧ calculate_address_probability t ≤ 1) ∧
    calculate_address_probability t = calculate_address_probability t := by
  refine ⟨?_, rfl⟩
  unfold calculate_address_probability
  split
  · exact ⟨le_refl 0, by norm_num⟩
  · refine ⟨le_min ?_ (by norm_num), min_le_right _ _⟩
    have h1 : (0:ℚ) ≤
        if question_starters.any (fun q => q.isPrefixOf (lowerStr t)) then 3/10 else 0 :=
      ite_weight_nonneg _ _ (by norm_num)
    have h2 : (0:ℚ) ≤
        min (((tech_keywords.countP (fun k => isInfixOfL k (lowerStr t))) : ℚ) * (15/100))
          (4/10) :=
      le_min (by positivity) (by norm_num)
    have h3 : (0:ℚ) ≤
        if help_phrases.any (fun ph => isInfixOfL ph (lowerStr t)) then 35/100 else 0 :=
      ite_weight_nonneg _ _ (by norm_num)
    have h4 : (0:ℚ) ≤ if isInfixOfL "?".data (lowerStr t) then 2/10 else 0 :=
      ite_weight_nonneg _ _ (by norm_num)
    have h5 : (0:ℚ) ≤
        if group_address.any (fun a => isInfixOfL a (lowerStr t)) then 15/100 else 0 :=
      ite_weight_nonneg _ _ (by norm_num)
    have h6 : (0:ℚ) ≤
        if confusion_words.any (fun w => isInfixOfL w (lowerStr t)) then 25/100 else 0 :=
      ite_weight_nonneg _ _ (by norm_num)
    exact add_nonneg (add_nonneg (add_nonneg (add_nonneg (add_nonneg h1 h2) h3) h4) h5) h6

/-- C1 (amended): every message carrying an image passes the gate —
`should_respond_to_message` returns `true` regardless of the classifier score
and of both random draws. (The original claim's further assertion, that an
image message is never dropped because `can_send()` is false, fails: see the
counterexample.) -/
theorem C1_image_always_passes_gate (md : MessageData) (rMedium rFallback : ℚ)
    (h : md.current_image = true) :
    should_respond_to_message md rMedium rFallback = true := by
  unfold should_respond_to_message
  split_ifs <;> simp_all

/-- C1 witness: the gate theorem applied to a concrete image message. -/
theorem C1_witness :
    should_respond_to_message ⟨none, none, true, false⟩ 0 0 = true :=
  C1_image_always_passes_gate ⟨none, none, true, false⟩ 0 0 rfl

/-- C1 counterexample: a non-direct image message IS dropped when the rate
limiter says no — the gate says respond, `can_send_message` is false, and the
handler sends nothing even though a response text was available. -/
theorem C1_counterexample :
    should_respond_to_message ⟨none, none, true, false⟩ 1 1 = true ∧
    (can_send_message ⟨1, 60, [100]⟩ 100).1 = false ∧
    (handle_new_message false ⟨1, 60, [100]⟩ ⟨none, none, true, false⟩ 1 1 100 100
        (some "ok".data)).sent = none := by
  refine ⟨by decide, by decide, by decide⟩

/-- C4: with `max_messages = N` and `window_seconds = W`, once `N` sends are
recorded and all of them are still inside the window, `can_send_message` is
false; and as soon as the oldest recorded send is older than `now - W`,
`can_send_message` is true again. -/
theorem C4_rate_limiter_window (N : ℕ) (W : ℤ) (ts : List ℤ) (now : ℤ)
    (hlen : ts.length = N) :
    ((∀ t ∈ ts, ¬ t < now - W) → (can_send_message ⟨N, W, ts⟩ now).1 = false) ∧
    (∀ t0 ts', ts = t0 :: ts' → t0 < now - W →
      (can_send_message ⟨N, W, ts⟩ now).1 = true) := by
  constructor
  · intro h
    simp only [can_send_message, pruneOld_of_fresh W now ts h]
    simp [hlen]
  · intro t0 ts' hts hold
    subst hts
    have hstep : pruneOld W now (t0 :: ts') = pruneOld W now ts' := by
      simp only [pruneOld]
      rw [if_pos hold]
    have hlt : (pruneOld W now ts').length < N := by
      have h1 := pruneOld_length_le W now ts'
      have h2 : ts'.length + 1 = N := by simpa using hlen
      omega
    simp only [can_send_message, hstep]
    simp [hlt]

/-- C4 witness: RateLimiter(max=2, window=60) with two sends at t=0 —
`can_send_message` is false at t=10 and true at t=61. -/
theorem C4_witness :
    (can_send_message ⟨2, 60, [0, 0]⟩ 10).1 = false ∧
    (can_send_message ⟨2, 60, [0, 0]⟩ 61).1 = true :=
  ⟨(C4_rate_limiter_window 2 60 [0, 0] 10 rfl).1 (by decide),
   (C4_rate_limiter_window 2 60 [0, 0] 61 rfl).2 0 [0] rfl (by decide)⟩

/-- C5 (amended): for every NON-EMPTY input text the typing-simulation
duration lies within `[2, 180]` seconds, whatever the outcomes of the random
terms. (The original claim over every text fails on the empty text: see the
counterexample.) -/
theorem C5_typing_time_bounds (message : Str) (rThink rConfusion rPunct : ℚ)
    (mistake : Bool) (rMistake : ℚ) (h : message ≠ []) :
    2 ≤ calculate_boomer_typing_time message rThink rConfusion rPunct mistake rMistake ∧
    calculate_boomer_typing_time message rThink rConfusion rPunct mistake rMistake ≤ 180 := by
  simp only [calculate_boomer_typing_time, if_neg h]
  constructor
  · exact le_min (by norm_num) (le_max_left _ _)
  · exact min_le_left _ _

/-- C5 witness: the bounds theorem applied to a concrete one-letter text. -/
theorem C5_witness :
    ("a".data ≠ ([] : Str)) ∧
    (2 ≤ calculate_boomer_typing_time "a".data 0 0 0 false 0 ∧
      calculate_boomer_typing_time "a".data 0 0 0 false 0 ≤ 180) :=
  ⟨by decide, C5_typing_time_bounds "a".data 0 0 0 false 0 (by decide)⟩

/-- C5 counterexample: on the empty text the duration is 1 second, outside
the claimed interval `[2, 180]`. -/
theorem C5_counterexample :
    calculate_boomer_typing_time [] 0 0 0 false 0 = 1 ∧
    ¬(2 ≤ calculate_boomer_typing_time [] 0 0 0 false 0) := by
  constructor
  · rfl
  · rw [show calculate_boomer_typing_time [] 0 0 0 false 0 = 1 from rfl]
    norm_num

/-- C8: on every exit path of `type_while_processing` — the awaited inner
task completing normally, raising, or being cancelled (`inner` ranges over
all three) — the typing flag is cleared, the typing-loop task is cancelled
and the stop-typing notification is issued, in that order after the spawn;
the inner outcome is propagated unchanged. Without a selected group no
typing is ever started, so none is left active either. -/
theorem C8_stop_typing_on_every_exit (α : Type) (inner : InnerOutcome α) :
    ((type_while_processing true inner).1 = inner ∧
      (type_while_processing true inner).2 =
        [TEvent.spawnTypingLoop, TEvent.setTypingInactive,
         TEvent.cancelTypingTask, TEvent.stopTypingSignal]) ∧
    type_while_processing false inner = (inner, []) :=
  ⟨⟨rfl, rfl⟩, rfl⟩

/-- C10: `can_send_message` never appends — its state is a suffix of the
input state — and it is idempotent: a second call at the same time returns
the same boolean and leaves the same state as the first. -/
theorem C10_can_send_idempotent (rl : RateLimiter) (now : ℤ) :
    (can_send_message rl now).2.message_times <:+ rl.message_times ∧
    can_send_message (can_send_message rl now).2 now = can_send_message rl now := by
  constructor
  · simp only [can_send_message]
    exact pruneOld_suffix _ _ _
  · simp [can_send_message, pruneOld_idem]

/-- C6: every failure of the completion call — missing API credential,
timeout, request error, any other exception, non-200 HTTP status, malformed
body, missing/empty choices, or empty content — makes the responder return
`none`; `process_message` likewise returns `none` when its formatting step
raises. (Both embedded functions are total `Option`-valued functions: no
exception propagates to the message-handling pipeline.) -/
theorem C6_failures_return_none :
    (∀ r : ApiResult, get_claude_response none r = none) ∧
    (∀ k : Str, get_claude_response (some k) .timeout = none) ∧
    (∀ k : Str, get_claude_response (some k) .requestError = none) ∧
    (∀ k : Str, get_claude_response (some k) .otherError = none) ∧
    (∀ (k : Str) (s : ℕ) (b : ApiBody), s ≠ 200 →
      get_claude_response (some k) (.response s b) = none) ∧
    (∀ k : Str, get_claude_response (some k) (.response 200 .malformed) = none) ∧
    (∀ k : Str, get_claude_response (some k) (.response 200 .noChoices) = none) ∧
    (∀ (k c : Str), stripStr c = [] →
      get_claude_response (some k) (.response 200 (.choice c)) = none) ∧
    (∀ (k : Option Str) (r : ApiResult), process_message true k r = none) := by
  refine ⟨fun r => rfl, fun k => rfl, fun k => rfl, fun k => rfl, ?_, fun k => rfl,
    fun k => rfl, ?_, fun k r => rfl⟩
  · intro k s b hs
    simp [get_claude_response, hs]
  · intro k c hc
    simp [get_claude_response, hc]

/-- C6 witness: the failure theorem applied at concrete failing inputs. -/
theorem C6_witness :
    get_claude_response none .timeout = none ∧
    get_claude_response (some "k".data) (.response 500 .noChoices) = none ∧
    get_claude_response (some "k".data) (.response 200 (.choice " ".data)) = none ∧
    process_message true (some "k".data) (.response 200 (.choice "ok".data)) = none := by
  obtain ⟨h1, h2, h3, h4, h5, h6, h7, h8, h9⟩ := C6_failures_return_none
  exact ⟨h1 .timeout, h5 "k".data 500 .noChoices (by decide), h8 "k".data " ".data (by decide),
    h9 (some "k".data) (.response 200 (.choice "ok".data))⟩

/-- C7 (amended): whenever the handler sends nothing — in particular whenever
the responder returned `none` — no timestamp is appended to the rate limiter:
the resulting timestamp list is a suffix of the original (it can differ only
by the pruning of expired entries performed by the `can_send_message` check).
(The original claim's "left unchanged" fails because of that pruning: see the
counterexample.) -/
theorem C7_no_append_without_send (ib : Bool) (rl : RateLimiter) (md : MessageData)
    (rM rF : ℚ) (tCheck tSend : ℤ) (response : Option Str) :
    (response = none →
      (handle_new_message ib rl md rM rF tCheck tSend response).sent = none) ∧
    ((handle_new_message ib rl md rM rF tCheck tSend response).sent = none →
      (handle_new_message ib rl md rM rF tCheck tSend response).limiter.message_times <:+
        rl.message_times) := by
  constructor
  · intro hresp
    subst hresp
    simp only [handle_new_message]
    split_ifs <;> rfl
  · intro hsent
    rcases response with _ | r
    · simp only [handle_new_message] at hsent ⊢
      split_ifs <;>
        first
          | exact List.suffix_refl _
          | (simp only [can_send_message]; exact pruneOld_suffix _ _ _)
    · simp only [handle_new_message] at hsent ⊢
      split_ifs at hsent ⊢ <;>
        first
          | exact List.suffix_refl _
          | (simp only [can_send_message]; exact pruneOld_suffix _ _ _)

/-- C7 witness: the frame theorem applied at a concrete input with a `none`
response. -/
theorem C7_witness :
    (handle_new_message false ⟨2, 60, []⟩ ⟨none, none, false, false⟩ 1 1 0 0 none).sent =
      none ∧
    (handle_new_message false ⟨2, 60, []⟩ ⟨none, none, false, false⟩ 1 1 0 0
        none).limiter.message_times <:+ ([] : List ℤ) := by
  have h := C7_no_append_without_send false ⟨2, 60, []⟩ ⟨none, none, false, false⟩ 1 1 0 0 none
  exact ⟨h.1 rfl, h.2 (h.1 rfl)⟩

/-- C7 counterexample: with an expired timestamp in the window, a handled
image message whose responder returns `none` sends nothing, yet the rate
limiter's timestamp sequence changes (the expired entry is pruned by the
rate check), so "left unchanged" is false as stated. -/
theorem C7_counterexample :
    (handle_new_message false ⟨1, 60, [0]⟩ ⟨none, none, true, false⟩ 1 1 100 100
        none).sent = none ∧
    (handle_new_message false ⟨1, 60, [0]⟩ ⟨none, none, true, false⟩ 1 1 100 100
        none).limiter.message_times ≠ [0] := by
  refine ⟨by decide, by decide⟩

/-- C2 helper: the classifier score of "ciao?" is 7/20 — inside the medium
band (0.2, 0.4]. -/
theorem score_ciao : calculate_address_probability "ciao?".data = 7/20 := by
  have hne : ¬("ciao?".data = ([] : Str)) := by decide
  have hq : question_starters.any (fun q => q.isPrefixOf (lowerStr "ciao?".data)) = false := by
    decide
  have ht : tech_keywords.countP (fun k => isInfixOfL k (lowerStr "ciao?".data)) = 0 := by
    decide
  have hh : help_phrases.any (fun ph => isInfixOfL ph (lowerStr "ciao?".data)) = false := by
    decide
  have hqm : isInfixOfL "?".data (lowerStr "ciao?".data) = true := by decide
  have hg : group_address.any (fun a => isInfixOfL a (lowerStr "ciao?".data)) = true := by
    decide
  have hc : confusion_words.any (fun w => isInfixOfL w (lowerStr "ciao?".data)) = false := by
    decide
  simp only [calculate_address_probability, if_neg hne, hq, ht, hh, hqm, hg, hc]
  norm_num

/-- C2: at text "ciao?" (score 7/20, strictly inside the medium band
(0.2, 0.4]) with a failed weighted coin flip (draw 9/10 ≥ 7/20) and a lucky
fallback draw (1/100 < 5/100), the code responds: the flat 5% fallback branch
IS consulted after the failed medium-band flip, against the claimed strict
first-match-wins priority. -/
theorem C2_fallback_consulted_after_failed_flip :
    calculate_address_probability "ciao?".data = 7/20 ∧
    ((1:ℚ)/5 < 7/20 ∧ (7:ℚ)/20 ≤ 2/5) ∧
    ¬((9:ℚ)/10 < 7/20) ∧
    should_respond_to_message ⟨some "ciao?".data, none, false, false⟩ (9/10) (1/100) =
      true := by
  have hmt : message_text_of ⟨some "ciao?".data, none, false, false⟩ = "ciao?".data := by
    decide
  have hm1 : isInfixOfL "@ruphy".data "ciao?".data = false := by decide
  have hm2 : isInfixOfL "riccardo".data "ciao?".data = false := by decide
  refine ⟨score_ciao, ⟨by norm_num, by norm_num⟩, by norm_num, ?_⟩
  simp only [should_respond_to_message, hmt, hm1, hm2, score_ciao]
  norm_num

/-- C9: for a message whose text is absent or empty, the classifier returns
exactly 0, and such a message passes the gate exactly when it is a direct
reply, carries an image, or wins the flat 5% fallback draw (with empty text a
mention cannot fire, so these are the only ways through). -/
theorem C9_empty_text_gate (md : MessageData) (rMedium rFallback : ℚ)
    (h : md.text = none ∨ md.text = some []) :
    calculate_address_probability (message_text_of md) = 0 ∧
    (should_respond_to_message md rMedium rFallback = true ↔
      (md.reply_to_msg_id.isSome = true ∨ md.current_image = true ∨ rFallback < 5/100)) := by
  have htext : message_text_of md = [] := by
    rcases h with h | h <;> simp [message_text_of, h, lowerStr]
  have hscore : calculate_address_probability ([] : Str) = 0 := by decide
  have hm1 : isInfixOfL "@ruphy".data ([] : Str) = false := by decide
  have hm2 : isInfixOfL "riccardo".data ([] : Str) = false := by decide
  have c1 : ¬((0:ℚ) > 4/10) := by norm_num
  have c2 : ¬((0:ℚ) > 2/10) := by norm_num
  refine ⟨by rw [htext]; exact hscore, ?_⟩
  simp only [should_respond_to_message, htext, hm1, hm2, hscore, Bool.or_self,
    Bool.false_eq_true, if_false, if_neg c1, if_neg c2]
  by_cases hr : md.reply_to_msg_id.isSome = true
  · simp [hr]
  · by_cases hi : md.current_image = true
    · simp [hr, hi]
    · by_cases hf : rFallback < 5/100
      · simp [hr, hi, hf]
      · simp [hr, hi, hf]

/-- C9 witness: the theorem applied to a concrete text-less message with a
winning fallback draw. -/
theorem C9_witness :
    calculate_address_probability (message_text_of ⟨none, none, false, false⟩) = 0 ∧
    (should_respond_to_message ⟨none, none, false, false⟩ 0 0 = true ↔
      ((none : Option Nat).isSome = true ∨ false = true ∨ (0:ℚ) < 5/100)) :=
  C9_empty_text_gate ⟨none, none, false, false⟩ 0 0 (Or.inl rfl)

end NonnoBot
